import Mathlib

/-!
Shallow embedding of the render-task orchestration subsystem of the
`algolia/renderer` (renderscript) repository, and proofs about it.

The embedding covers:
* the task-result production of `PageTask.process` (src/lib/tasks/Page.ts) and of
  the legacy `Renderer._processPage` (src/lib/Renderer.ts);
* the minimum-wait sleep performed between navigation and serialization
  (src/lib/tasks/Page.ts, lines 51-54);
* the request-interception handler installed by `BrowserPage.#updateContext`
  (src/lib/browser/Page.ts), including its metrics side effects;
* the `RollingRenderer` routing decision, its `task`/`ready`/`healthy` accessors
  (src/lib/RollingRenderer.ts);
* the `TasksManager` `task`/`stop` lifecycle (src/lib/TasksManager.ts).

Effectful TypeScript code is modelled as explicit state passing; methods that
`throw` are modelled with `Except String`.
-/

/-! ## Task results

`TaskResult` in the source is a record of optional fields; a field that the
TypeScript code leaves out of the returned object literal is `none` here.
-/

/-- The part of a puppeteer `HTTPResponse` the tasks consume: `status()` and
`headers()`. -/
structure RespInfo where
  status : Nat
  headers : List (String × String)
deriving DecidableEq

/-- Mirror of the `TaskResult` record: every field of the TS object literal is
optional, and a field absent from the returned literal is `none`. -/
structure TaskResults where
  statusCode : Option Nat := none
  headers : Option (List (String × String)) := none
  body : Option String := none
  resolvedUrl : Option String := none
  error : Option String := none
  timeout : Option Bool := none
deriving DecidableEq

/-- The empty result object (no field populated). -/
def TaskResults.empty : TaskResults := {}

/-- What `page.evaluate('window.location.href')` and
`page.evaluate('document.firstElementChild.outerHTML')` return at the three
evaluation points of the serialization sequence: the URL read immediately
before extracting the HTML (`preSerializationUrl`), the extracted HTML
(`body`), and the URL read immediately after the extraction (`resolvedUrl`).
The field names are the variable names used in the source. -/
structure PageState where
  preSerializationUrl : String
  body : String
  resolvedUrl : String
deriving DecidableEq

/-! ## `PageTask.process` (src/lib/tasks/Page.ts)

`this.renderer.goto` (the `BrowserPage.goto` of src/lib/browser/Page.ts) either
returns the canonical response or throws `FetchError('no_response', timeout)`:
it throws with `timeout=true` on `Navigation Timeout Exceeded` and with
`timeout=false` when no response object was ever observed. -/

/-- Outcome of the awaited `goto` call inside `PageTask.process`. -/
inductive GotoOutcome where
  /-- `goto` resolved with the canonical response. -/
  | ok (resp : RespInfo)
  /-- `goto` threw `FetchError('no_response', true)` (navigation timeout). -/
  | errTimeout
  /-- `goto` threw `FetchError('no_response')` (no response observed). -/
  | errNoResponse
deriving DecidableEq

/-- The `_results` value produced by `PageTask.process`, as a function of the
`goto` outcome and of the values observed at the serialization evaluation
points. On a `goto` error the result is `{error: err.message, timeout:
Boolean(err.timeout)}`; otherwise, if the URL read before HTML extraction
differs from the one read after, the result is `{error: 'unsafe_redirect'}`;
otherwise `{statusCode, headers, body, resolvedUrl}`. -/
def PageTask.process (goto : GotoOutcome) (page : PageState) : TaskResults :=
  match goto with
  | .errTimeout => { error := some "no_response", timeout := some true }
  | .errNoResponse => { error := some "no_response", timeout := some false }
  | .ok resp =>
    if page.preSerializationUrl ≠ page.resolvedUrl then
      { error := some "unsafe_redirect" }
    else
      { statusCode := some resp.status
        headers := some resp.headers
        body := some page.body
        resolvedUrl := some page.resolvedUrl }

/-! ## Legacy `Renderer._processPage` (src/lib/Renderer.ts)

Here `page.goto` is called directly inside a `try`: the shared `response`
variable is first fed by a `page.addListener('response', ...)` callback (first
response wins) and then overwritten by the value `goto` resolves with (possibly
`null`); when `goto` throws, the listener's value survives. A thrown
`Navigation Timeout Exceeded` sets the local `timeout` flag and the code keeps
going with whatever response the listener captured. -/

/-- Outcome of the `page.goto` call inside `Renderer._processPage`. -/
inductive GotoNav where
  /-- `page.goto` resolved; its value (possibly `null`) overwrites `response`. -/
  | resolved (r : Option RespInfo)
  /-- `page.goto` threw `Navigation Timeout Exceeded`. -/
  | timeoutError
  /-- `page.goto` threw some other error (logged, not rethrown). -/
  | otherError
deriving DecidableEq

/-- The result object returned by the legacy `Renderer._processPage`, as a
function of the `goto` outcome, of the first response captured by the
`response` listener, and of the serialization evaluation points. Note that the
success literal `{statusCode, headers, body, timeout, resolvedUrl}` always
carries the `timeout` boolean, which is `true` when navigation timed out even
though a listener-captured response let processing continue. -/
def Renderer.processPage (nav : GotoNav) (listenerResponse : Option RespInfo)
    (page : PageState) : TaskResults :=
  let response : Option RespInfo :=
    match nav with
    | .resolved r => r
    | _ => listenerResponse
  let timeout : Bool :=
    match nav with
    | .timeoutError => true
    | _ => false
  match response with
  | none => { error := some "no_response" }
  | some resp =>
    if page.preSerializationUrl ≠ page.resolvedUrl then
      { error := some "unsafe_redirect" }
    else
      { statusCode := some resp.status
        headers := some resp.headers
        body := some page.body
        timeout := some timeout
        resolvedUrl := some page.resolvedUrl }

/-! ## Minimum-wait sleep (src/lib/tasks/Page.ts, lines 51-54)

```ts
if (statusCode === 200 && minWait) {
  await page.waitForTimeout(minWait - (Date.now() - total));
}
```
`minWait` is truthy exactly when it is a nonzero number. The argument handed to
`page.waitForTimeout` may be negative; puppeteer's `waitForTimeout` defers to
`setTimeout`, which clamps negative delays to zero. -/

/-- External collaborator `page.waitForTimeout` / `setTimeout` semantics: a
requested delay of `ms` milliseconds sleeps for `max 0 ms`. -/
def waitForTimeout (ms : Int) : Nat := (max 0 ms).toNat

/-- The delay `PageTask.process` requests from `waitForTimeout`, or `none` when
the guard `statusCode === 200 && minWait` is falsy and no sleep is issued. -/
def PageTask.minWaitDelay (statusCode minWait elapsedSinceStart : Nat) :
    Option Int :=
  if statusCode = 200 ∧ minWait ≠ 0 then
    some ((minWait : Int) - (elapsedSinceStart : Int))
  else
    none

/-- The time actually slept between navigation and serialization. -/
def PageTask.minWaitSleep (statusCode minWait elapsedSinceStart : Nat) : Nat :=
  match PageTask.minWaitDelay statusCode minWait elapsedSinceStart with
  | some d => waitForTimeout d
  | none => 0

/-! ## Request interception (src/lib/browser/Page.ts, `#updateContext`)

The `page.on('request', ...)` handler decides, for every intercepted request,
between aborting and continuing (with forwarded headers on the top-level
navigation request), and updates the context's `requests` /`blockedRequests`
counters. -/

/-- Outcome of the awaited `validateURL({url, ipPrefixes: RESTRICTED_IPS})`
call: it resolves, or rejects with an error whose message contains `ENOTFOUND`
(DNS resolution failure), or rejects with any other validation error. -/
inductive ValidateOutcome where
  | ok
  | dnsNotFound
  | failed
deriving DecidableEq

/-- The facts about one intercepted request that the handler branches on. -/
structure InterceptedRequest where
  /-- `DATA_REGEXP.test(reqUrl)`: the URL is a data URI. -/
  isDataUrl : Bool
  /-- result of `validateURL` on the request URL. -/
  validate : ValidateOutcome
  /-- `IGNORED_RESOURCES.includes(req.resourceType())`. -/
  isIgnoredResource : Bool
  /-- `adblocker.match(new URL(reqUrl))`. -/
  adblockMatch : Bool
  /-- `req.isNavigationRequest()`. -/
  isNavigationRequest : Bool
deriving DecidableEq

/-- The action taken on the request. -/
inductive RequestDecision where
  /-- `req.abort()`. -/
  | abort
  /-- `req.continue({headers: {...headers, ...headersToForward}})`. -/
  | continueWithForwardedHeaders
  /-- `req.continue()`. -/
  | continueRequest
deriving DecidableEq

/-- The per-context counters the handler mutates. -/
structure PageMetrics where
  requests : Nat
  blockedRequests : Nat
deriving DecidableEq

/-- Result of running the request handler once: the updated counters, the
decision taken, and whether the branch called `console.error` on a validation
error. -/
structure HandleResult where
  metrics : PageMetrics
  decision : RequestDecision
  loggedError : Bool
deriving DecidableEq

/-- One run of the `page.on('request', ...)` handler of `#updateContext`,
with `adblock` the task's ad-block flag and `m` the counters before the
request. `requests` is incremented first, unconditionally; then: data URIs are
aborted (counted as blocked); a `validateURL` rejection aborts the request —
counting it as blocked and logging the error only when the message does not
contain `ENOTFOUND`; ignored resource types and ad-block matches are aborted
(counted); the navigation request continues with the forwarded headers merged;
anything else continues unchanged. -/
def BrowserPage.handleRequest (adblock : Bool) (m : PageMetrics)
    (req : InterceptedRequest) : HandleResult :=
  let m := { m with requests := m.requests + 1 }
  if req.isDataUrl then
    { metrics := { m with blockedRequests := m.blockedRequests + 1 }
      decision := .abort
      loggedError := false }
  else
    match req.validate with
    | .dnsNotFound =>
      { metrics := m, decision := .abort, loggedError := false }
    | .failed =>
      { metrics := { m with blockedRequests := m.blockedRequests + 1 }
        decision := .abort
        loggedError := true }
    | .ok =>
      if req.isIgnoredResource then
        { metrics := { m with blockedRequests := m.blockedRequests + 1 }
          decision := .abort
          loggedError := false }
      else if adblock && req.adblockMatch then
        { metrics := { m with blockedRequests := m.blockedRequests + 1 }
          decision := .abort
          loggedError := false }
      else if req.isNavigationRequest then
        { metrics := m, decision := .continueWithForwardedHeaders
          loggedError := false }
      else
        { metrics := m, decision := .continueRequest, loggedError := false }

/-! ## Rolling pool (src/lib/RollingRenderer.ts)

The pool holds a current `Renderer`, an optional future `Renderer` being warmed
up, and the promise of a pending `stop()` on a previously-current renderer.
State is mutated only by the `renderer` getter. Each `Renderer` carries its
task counter `nbTotalTasks`, its `ready` flag, and its `_stopping` flag; here
`rid` stands for the renderer's identity (the uuid of the source) and is drawn
from the pool's fresh-id counter `nextId`. `stopsStarted` is a ghost log of the
identities of renderers whose `stop()` has been started. -/

/-- The observable state of one `Renderer` instance. -/
structure RendererState where
  rid : Nat
  nbTotalTasks : Nat
  ready : Bool
  stopping : Bool
deriving DecidableEq

/-- `new Renderer()`: zero tasks served, not ready yet, not stopping. -/
def newRenderer (i : Nat) : RendererState :=
  { rid := i, nbTotalTasks := 0, ready := false, stopping := false }

/-- State of a `RollingRenderer`. `previousStopPending` is `some i` exactly
while `_previousStopPromise` is non-null, with `i` the identity of the renderer
being stopped; `stopsStarted` is a ghost log of every identity on which
`stop()` has ever been started by the routing step. -/
structure RollingState where
  stopping : Bool
  currentRenderer : RendererState
  futureRenderer : Option RendererState
  previousStopPending : Option Nat
  nextId : Nat
  stopsStarted : List Nat
deriving DecidableEq

/-- The tail of the `renderer` getter once `nbTotalTasks` has reached the
limit and a future renderer `fut` exists in `s.futureRenderer`: keep returning
the current renderer while a previous stop is pending or the future one is not
ready; otherwise start stopping the current renderer (`_stopCurrentRenderer`:
record its identity in `previousStopPending` and in the ghost log), promote the
future renderer and clear the future slot. -/
def RollingRenderer.routeWithFuture (s : RollingState) (fut : RendererState) :
    RendererState × RollingState :=
  if s.previousStopPending.isSome then
    (s.currentRenderer, s)
  else if !fut.ready then
    (s.currentRenderer, s)
  else
    (fut,
      { s with
        currentRenderer := fut
        futureRenderer := none
        previousStopPending := some s.currentRenderer.rid
        stopsStarted := s.currentRenderer.rid :: s.stopsStarted })

/-- The `renderer` getter. Throws while the pool is stopping. Below
`maxRendererTasks` (the `MAX_RENDERER_TASKS` constant) it returns the current
renderer unchanged; at or above the limit it creates the future renderer when
the slot is empty (a fresh renderer is created not-ready, so both subsequent
checks of the source return the current renderer) and then routes through
`routeWithFuture`. -/
def RollingRenderer.getRenderer (maxRendererTasks : Nat) (s : RollingState) :
    Except String (RendererState × RollingState) :=
  if s.stopping then
    .error "Called (get) renderer on a stopping RollingRenderer"
  else if s.currentRenderer.nbTotalTasks < maxRendererTasks then
    .ok (s.currentRenderer, s)
  else
    match s.futureRenderer with
    | none =>
      let f := newRenderer s.nextId
      .ok (RollingRenderer.routeWithFuture
        { s with futureRenderer := some f, nextId := s.nextId + 1 } f)
    | some f => .ok (RollingRenderer.routeWithFuture s f)

/-- `RollingRenderer.task`: rejects while stopping, otherwise routes through
the `renderer` getter (the renderer the job is dispatched on is the returned
one). -/
def RollingRenderer.taskGate (maxRendererTasks : Nat) (s : RollingState) :
    Except String (RendererState × RollingState) :=
  if s.stopping then
    .error "Called task on a stopping RollingRenderer"
  else
    RollingRenderer.getRenderer maxRendererTasks s

/-- The `ready` getter of `RollingRenderer`: `return this.renderer.ready`. -/
def RollingRenderer.readyGet (maxRendererTasks : Nat) (s : RollingState) :
    Except String (Bool × RollingState) :=
  match RollingRenderer.getRenderer maxRendererTasks s with
  | .error e => .error e
  | .ok (r, s') => .ok (r.ready, s')

/-- `Renderer.healthy` (src/lib/Renderer.ts): false when stopping, otherwise
the result of the `browser.version()` probe. -/
def Renderer.healthy (r : RendererState) (browserResponsive : Bool) : Bool :=
  if r.stopping then false else browserResponsive

/-- `RollingRenderer.healthy`: `return await this.renderer.healthy()`. -/
def RollingRenderer.healthyGet (maxRendererTasks : Nat)
    (browserResponsive : Bool) (s : RollingState) :
    Except String (Bool × RollingState) :=
  match RollingRenderer.getRenderer maxRendererTasks s with
  | .error e => .error e
  | .ok (r, s') => .ok (Renderer.healthy r browserResponsive, s')

/-- Pool invariant maintained by the routing step: the current renderer is not
stopping and no stop has been started on it; the future renderer (when
present) likewise, and it is distinct from the current one; every identity in
play is below the fresh-id counter. -/
structure RollingInv (s : RollingState) : Prop where
  currentNotStopping : s.currentRenderer.stopping = false
  currentNoStopStarted : s.currentRenderer.rid ∉ s.stopsStarted
  currentIdLt : s.currentRenderer.rid < s.nextId
  futureOk : ∀ f, s.futureRenderer = some f →
    f.stopping = false ∧ f.rid ∉ s.stopsStarted ∧
    f.rid ≠ s.currentRenderer.rid ∧ f.rid < s.nextId
  stopsLt : ∀ i ∈ s.stopsStarted, i < s.nextId

/-! ## Task manager (src/lib/TasksManager.ts)

The manager's in-flight map is modelled by the list of registered task ids;
the browser and stopping flags are booleans. `task()` is modelled as a
function of the manager state and of how the body of its `try` block plays
out. -/

/-- The manager state `task()` reads and writes. -/
structure ManagerState where
  stopping : Bool
  hasBrowser : Bool
  tasks : List String
deriving DecidableEq

/-- How the body of the `try` block of `TasksManager.task` plays out. -/
inductive TaskOutcome where
  /-- `page.create` lost the race against `MAX_WAIT_FOR_NEW_PAGE`: `stop()` is
  fired and `Can not create a BrowserPage` is thrown. -/
  | pageCreateHang
  /-- the task processed; errors inside `task.process()` are caught and
  reported, so the body returns `task.results`. -/
  | processed (results : TaskResults)
  /-- `task.close()` (or another awaited step after registration) threw. -/
  | bodyThrew (msg : String)
deriving DecidableEq

/-- `#registerTask`: put the task id in the in-flight map. -/
def TasksManager.registerTask (s : ManagerState) (id : String) : ManagerState :=
  { s with tasks := id :: s.tasks }

/-- `#removeTask`: throws `Could not find task` when the id is not in the map,
otherwise deletes it. -/
def TasksManager.removeTask (s : ManagerState) (id : String) :
    Except String ManagerState :=
  if s.tasks.contains id then
    .ok { s with tasks := s.tasks.erase id }
  else
    .error "Could not find task"

/-- The side effects `TasksManager.stop` performs. -/
structure StopEffects where
  /-- the in-flight task promises awaited. -/
  awaitedTasks : List String
  /-- whether `browser.stop()` was called. -/
  browserStopCalled : Bool
deriving DecidableEq

/-- `TasksManager.stop`: set the stopping flag, await every in-flight task
promise, clear the map, and stop and drop the browser when one is held. -/
def TasksManager.stop (s : ManagerState) : ManagerState × StopEffects :=
  ({ stopping := true, hasBrowser := false, tasks := [] },
   { awaitedTasks := s.tasks, browserStopCalled := s.hasBrowser })

/-- `TasksManager.task`: reject while stopping or without a browser (before
registering anything); otherwise register the id, run the body, and remove the
id in the `finally` block whatever the body did. In the page-creation-hang
outcome the body itself calls `stop()` (which clears the map) before throwing,
so the `finally` block's `#removeTask` throws `Could not find task`. -/
def TasksManager.taskRun (s : ManagerState) (id : String)
    (outcome : TaskOutcome) : Except String TaskResults × ManagerState :=
  if s.stopping then
    (.error "Task can not be executed: stopping", s)
  else if !s.hasBrowser then
    (.error "Task can not be executed: no_browser", s)
  else
    let s1 := TasksManager.registerTask s id
    let body : Except String TaskResults × ManagerState :=
      match outcome with
      | .pageCreateHang =>
        (.error "Can not create a BrowserPage", (TasksManager.stop s1).1)
      | .processed results => (.ok results, s1)
      | .bodyThrew msg => (.error msg, s1)
    match TasksManager.removeTask body.2 id with
    | .ok s3 => (body.1, s3)
    | .error e => (.error e, body.2)

/-! ## Claims about the final task result -/

/-- C1, counterexample. The claim says a result containing a status code and a
body never also has `timeout=true`. In the legacy `Renderer._processPage`,
when `page.goto` throws `Navigation Timeout Exceeded` but the `response`
listener captured a response, processing continues and the success literal is
returned with `timeout=true` together with the status code and the body. -/
theorem c1_counterexample :
    (Renderer.processPage GotoNav.timeoutError (some ⟨200, []⟩)
        ⟨"https://example.com/", "<html></html>", "https://example.com/"⟩).statusCode
      = some 200 ∧
    (Renderer.processPage GotoNav.timeoutError (some ⟨200, []⟩)
        ⟨"https://example.com/", "<html></html>", "https://example.com/"⟩).body
      = some "<html></html>" ∧
    (Renderer.processPage GotoNav.timeoutError (some ⟨200, []⟩)
        ⟨"https://example.com/", "<html></html>", "https://example.com/"⟩).timeout
      = some true := by
  refine ⟨?_, ?_, ?_⟩ <;> decide

/-- C1, amended. For both result-producing functions, status code and body are
populated exactly when no error is populated (so an error never accompanies a
status code or body, and `unsafe_redirect` results carry neither status code,
body, nor a `timeout` field). The `timeout` flag, however, is not exclusive
with the other two fields: in `PageTask.process` it accompanies the error
field (`timeout=true` exactly on a navigation timeout), and in the legacy
`Renderer._processPage` the success literal always carries the flag, which can
be `true` when a listener-captured response survived a navigation timeout,
while its error literals never carry it. -/
theorem c1_result_exclusivity (goto : GotoOutcome) (page : PageState)
    (nav : GotoNav) (listenerResponse : Option RespInfo) (page2 : PageState) :
    (((PageTask.process goto page).statusCode.isSome ↔
        (PageTask.process goto page).error = none) ∧
      ((PageTask.process goto page).body.isSome ↔
        (PageTask.process goto page).error = none) ∧
      ((PageTask.process goto page).error = some "unsafe_redirect" →
        (PageTask.process goto page).timeout = none) ∧
      ((PageTask.process goto page).timeout = some true →
        (PageTask.process goto page).error.isSome)) ∧
    (((Renderer.processPage nav listenerResponse page2).statusCode.isSome ↔
        (Renderer.processPage nav listenerResponse page2).error = none) ∧
      ((Renderer.processPage nav listenerResponse page2).body.isSome ↔
        (Renderer.processPage nav listenerResponse page2).error = none) ∧
      ((Renderer.processPage nav listenerResponse page2).error.isSome →
        (Renderer.processPage nav listenerResponse page2).timeout = none)) := by
  constructor
  · cases goto with
    | ok resp =>
      by_cases h : page.preSerializationUrl = page.resolvedUrl <;>
        simp [PageTask.process, h]
    | errTimeout => simp [PageTask.process]
    | errNoResponse => simp [PageTask.process]
  · have serialized : ∀ resp : RespInfo, ∀ t : Bool,
        let r : TaskResults :=
          if page2.preSerializationUrl ≠ page2.resolvedUrl then
            { error := some "unsafe_redirect" }
          else
            { statusCode := some resp.status, headers := some resp.headers,
              body := some page2.body, timeout := some t,
              resolvedUrl := some page2.resolvedUrl }
        (r.statusCode.isSome ↔ r.error = none) ∧
          (r.body.isSome ↔ r.error = none) ∧
          (r.error.isSome → r.timeout = none) := by
      intro resp t
      by_cases h : page2.preSerializationUrl = page2.resolvedUrl <;> simp [h]
    cases nav with
    | resolved r =>
      cases r with
      | none => simp [Renderer.processPage]
      | some resp => simpa [Renderer.processPage] using serialized resp false
    | timeoutError =>
      cases listenerResponse with
      | none => simp [Renderer.processPage]
      | some resp => simpa [Renderer.processPage] using serialized resp true
    | otherError =>
      cases listenerResponse with
      | none => simp [Renderer.processPage]
      | some resp => simpa [Renderer.processPage] using serialized resp false

/-- C2. Whenever the URL read immediately before HTML extraction differs from
the one read immediately after it, the task result is exactly
`{error: 'unsafe_redirect'}`: the captured HTML, status code and headers are
not returned. This holds for `PageTask.process` (given that `goto` resolved)
and for the legacy `Renderer._processPage` (given that `page.goto` resolved
with a response). The two URL reads themselves are embedded as the
`preSerializationUrl` and `resolvedUrl` fields of `PageState`, matching the
two `window.location.href` evaluations that bracket the
`document.firstElementChild.outerHTML` evaluation in the source. -/
theorem c2_unsafe_redirect (resp : RespInfo) (page : PageState)
    (listenerResponse : Option RespInfo) (r2 : RespInfo) (page2 : PageState)
    (h : page.preSerializationUrl ≠ page.resolvedUrl)
    (h2 : page2.preSerializationUrl ≠ page2.resolvedUrl) :
    PageTask.process (GotoOutcome.ok resp) page
      = { error := some "unsafe_redirect" } ∧
    Renderer.processPage (GotoNav.resolved (some r2)) listenerResponse page2
      = { error := some "unsafe_redirect" } := by
  constructor
  · simp [PageTask.process, h]
  · simp [Renderer.processPage, h2]

/-- C2, witness: a concrete serialization race (pre-read `a.example`,
post-read `b.example`) yields exactly the `unsafe_redirect` error in both
embeddings. -/
theorem c2_unsafe_redirect_witness :
    PageTask.process (GotoOutcome.ok ⟨200, []⟩)
        ⟨"https://a.example/", "<p></p>", "https://b.example/"⟩
      = { error := some "unsafe_redirect" } ∧
    Renderer.processPage (GotoNav.resolved (some ⟨200, []⟩)) none
        ⟨"https://a.example/", "<p></p>", "https://b.example/"⟩
      = { error := some "unsafe_redirect" } :=
  c2_unsafe_redirect ⟨200, []⟩ ⟨"https://a.example/", "<p></p>", "https://b.example/"⟩
    none ⟨200, []⟩ ⟨"https://a.example/", "<p></p>", "https://b.example/"⟩
    (by decide) (by decide)

/-- C6, counterexample. The claim predicts the minimum-wait sleep for every
2xx status, but the code guards the sleep with `statusCode === 200`:
at status 204 with `minWait = 100` and no elapsed time, the claim predicts a
100 ms sleep while the code sleeps 0 ms. -/
theorem c6_counterexample :
    ¬ (∀ statusCode minWait elapsedSinceStart : Nat,
        200 ≤ statusCode → statusCode < 300 → 0 < minWait →
        PageTask.minWaitSleep statusCode minWait elapsedSinceStart
          = (max 0 ((minWait : Int) - (elapsedSinceStart : Int))).toNat) := by
  intro h
  have h204 := h 204 100 0 (by decide) (by decide) (by decide)
  exact absurd h204 (by decide)

/-- C6, amended. The sleep happens exactly when the navigation status is
exactly 200 (not any 2xx) and a nonzero minimum wait is configured, and then
lasts `max(0, minWait - elapsedSinceStart)`: the code passes
`minWait - elapsed` to the engine's wait primitive, which clamps negative
delays to zero. In every other case no sleep occurs. -/
theorem c6_min_wait (statusCode minWait elapsedSinceStart : Nat) :
    PageTask.minWaitSleep statusCode minWait elapsedSinceStart
      = if statusCode = 200 ∧ 0 < minWait then
          (max 0 ((minWait : Int) - (elapsedSinceStart : Int))).toNat
        else 0 := by
  by_cases h1 : statusCode = 200
  · by_cases h2 : minWait = 0
    · subst h1; subst h2
      simp [PageTask.minWaitSleep, PageTask.minWaitDelay]
    · simp [PageTask.minWaitSleep, PageTask.minWaitDelay, waitForTimeout, h1,
        h2, Nat.pos_of_ne_zero h2]
  · simp [PageTask.minWaitSleep, PageTask.minWaitDelay, h1]

/-! ## Claims about request interception -/

/-- C4, counterexample. The claim says a request whose host validation fails
with a DNS-resolution failure is allowed to proceed; in the code the
`validateURL` catch block calls `req.abort()` unconditionally — the
`ENOTFOUND` test only guards the logging and the blocked counter. A plain
request whose validation rejects with `ENOTFOUND` is aborted. -/
theorem c4_counterexample :
    (BrowserPage.handleRequest false ⟨0, 0⟩
        ⟨false, ValidateOutcome.dnsNotFound, false, false, false⟩).decision
      = RequestDecision.abort := by decide

/-- C4, amended. Every request whose IP validation fails is blocked
(aborted), including DNS-resolution failures; a DNS-resolution failure
differs only in being silent: the blocked-request counter is not incremented
and the error is not logged, while any other validation failure is counted
and logged. -/
theorem c4_validation_block (adblock : Bool) (m : PageMetrics)
    (req : InterceptedRequest) (hv : req.validate ≠ ValidateOutcome.ok) :
    (BrowserPage.handleRequest adblock m req).decision = RequestDecision.abort ∧
    (req.isDataUrl = false → req.validate = ValidateOutcome.dnsNotFound →
      (BrowserPage.handleRequest adblock m req).metrics.blockedRequests
          = m.blockedRequests ∧
        (BrowserPage.handleRequest adblock m req).loggedError = false) ∧
    (req.isDataUrl = false → req.validate = ValidateOutcome.failed →
      (BrowserPage.handleRequest adblock m req).metrics.blockedRequests
          = m.blockedRequests + 1 ∧
        (BrowserPage.handleRequest adblock m req).loggedError = true) := by
  obtain ⟨d, v, ig, ad, nav⟩ := req
  cases d <;> cases v <;> simp_all [BrowserPage.handleRequest]

/-- C4, witness: a concrete DNS-resolution failure is aborted, uncounted and
unlogged. -/
theorem c4_validation_block_witness :
    (BrowserPage.handleRequest false ⟨3, 1⟩
        ⟨false, ValidateOutcome.dnsNotFound, false, false, true⟩).decision
        = RequestDecision.abort ∧
    (false = false → ValidateOutcome.dnsNotFound = ValidateOutcome.dnsNotFound →
      (BrowserPage.handleRequest false ⟨3, 1⟩
          ⟨false, ValidateOutcome.dnsNotFound, false, false, true⟩).metrics.blockedRequests
          = 1 ∧
        (BrowserPage.handleRequest false ⟨3, 1⟩
            ⟨false, ValidateOutcome.dnsNotFound, false, false, true⟩).loggedError
          = false) ∧
    (false = false → ValidateOutcome.dnsNotFound = ValidateOutcome.failed →
      (BrowserPage.handleRequest false ⟨3, 1⟩
          ⟨false, ValidateOutcome.dnsNotFound, false, false, true⟩).metrics.blockedRequests
          = 1 + 1 ∧
        (BrowserPage.handleRequest false ⟨3, 1⟩
            ⟨false, ValidateOutcome.dnsNotFound, false, false, true⟩).loggedError
          = true) :=
  c4_validation_block false ⟨3, 1⟩
    ⟨false, ValidateOutcome.dnsNotFound, false, false, true⟩ (by decide)

/-- C5, counterexample. The claim says every aborted request increments the
blocked-request counter; a request aborted because `validateURL` rejected with
`ENOTFOUND` leaves the counter untouched (the total counter still moves from
5 to 6). -/
theorem c5_counterexample :
    (BrowserPage.handleRequest true ⟨5, 2⟩
        ⟨false, ValidateOutcome.dnsNotFound, false, true, false⟩).decision
      = RequestDecision.abort ∧
    (BrowserPage.handleRequest true ⟨5, 2⟩
        ⟨false, ValidateOutcome.dnsNotFound, false, true, false⟩).metrics.blockedRequests
      = 2 ∧
    (BrowserPage.handleRequest true ⟨5, 2⟩
        ⟨false, ValidateOutcome.dnsNotFound, false, true, false⟩).metrics.requests
      = 6 := by decide

/-- C5, amended. Every observed request increments the context's
total-request counter (regardless of, and in the code prior to, the
allow/block decision), and every blocked (aborted) request additionally
increments the blocked-request counter — except an abort caused by a
DNS-resolution failure (`ENOTFOUND`), which leaves the blocked counter
unchanged. Requests that are allowed through never touch the blocked
counter. -/
theorem c5_request_counters (adblock : Bool) (m : PageMetrics)
    (req : InterceptedRequest) :
    (BrowserPage.handleRequest adblock m req).metrics.requests
        = m.requests + 1 ∧
    ((BrowserPage.handleRequest adblock m req).decision = RequestDecision.abort →
      ((BrowserPage.handleRequest adblock m req).metrics.blockedRequests
          = m.blockedRequests + 1 ↔
        ¬(req.isDataUrl = false ∧ req.validate = ValidateOutcome.dnsNotFound))) ∧
    ((BrowserPage.handleRequest adblock m req).decision ≠ RequestDecision.abort →
      (BrowserPage.handleRequest adblock m req).metrics.blockedRequests
        = m.blockedRequests) := by
  obtain ⟨d, v, ig, ad, nav⟩ := req
  cases d <;> cases v <;> cases ig <;> cases ad <;> cases nav <;>
    cases adblock <;> simp [BrowserPage.handleRequest]

/-! ## Claims about the task manager and the rolling pool -/

/-- C7. A fresh task id is registered in the in-flight map before the body of
`task()` runs, and whatever the body does — the task processes, an awaited step
throws, or page creation hangs (in which case `stop()` clears the map and the
`finally` block's `#removeTask` itself throws) — the id is gone from the map
when the call completes: no completed call leaves a phantom in-flight entry. -/
theorem c7_no_phantom_entry (s : ManagerState) (id : String)
    (outcome : TaskOutcome) (hfresh : id ∉ s.tasks) :
    id ∈ (TasksManager.registerTask s id).tasks ∧
    id ∉ ((TasksManager.taskRun s id outcome).2).tasks := by
  refine ⟨List.mem_cons_self id s.tasks, ?_⟩
  unfold TasksManager.taskRun
  by_cases hs : s.stopping = true
  · simp [hs, hfresh]
  · by_cases hb : s.hasBrowser = true
    · cases outcome <;>
        simp [hs, hb, TasksManager.registerTask, TasksManager.removeTask,
          TasksManager.stop, hfresh]
    · simp [hs, hb, hfresh]

/-- C7, witness: a concrete call on a live manager with one other in-flight
task registers and then fully deregisters the fresh id. -/
theorem c7_no_phantom_entry_witness :
    "t2" ∉ ["t1"] ∧
    ("t2" ∈ (TasksManager.registerTask ⟨false, true, ["t1"]⟩ "t2").tasks ∧
      "t2" ∉ ((TasksManager.taskRun ⟨false, true, ["t1"]⟩ "t2"
          (TaskOutcome.processed {})).2).tasks) :=
  ⟨by decide, c7_no_phantom_entry ⟨false, true, ["t1"]⟩ "t2"
    (TaskOutcome.processed {}) (by decide)⟩

/-- C8. A task submitted while the manager is stopping is rejected
immediately and the manager state is untouched (nothing is queued or
registered); likewise the rolling pool's `task` throws while the pool is
stopping, before any routing happens. -/
theorem c8_reject_while_stopping (s : ManagerState) (id : String)
    (outcome : TaskOutcome) (maxRendererTasks : Nat) (p : RollingState)
    (hs : s.stopping = true) (hp : p.stopping = true) :
    TasksManager.taskRun s id outcome
      = (.error "Task can not be executed: stopping", s) ∧
    RollingRenderer.taskGate maxRendererTasks p
      = .error "Called task on a stopping RollingRenderer" := by
  constructor
  · simp [TasksManager.taskRun, hs]
  · simp [RollingRenderer.taskGate, hp]

/-- C8, witness: concrete stopping manager and pool states reject a task. -/
theorem c8_reject_while_stopping_witness :
    TasksManager.taskRun ⟨true, true, []⟩ "t1" (TaskOutcome.processed {})
      = (.error "Task can not be executed: stopping", ⟨true, true, []⟩) ∧
    RollingRenderer.taskGate 10 ⟨true, newRenderer 0, none, none, 1, []⟩
      = .error "Called task on a stopping RollingRenderer" :=
  c8_reject_while_stopping ⟨true, true, []⟩ "t1" (TaskOutcome.processed {})
    10 ⟨true, newRenderer 0, none, none, 1, []⟩ rfl rfl

/-- C9. `TasksManager.stop` is idempotent: after a first `stop()` has
completed, a second `stop()` returns the very same state, awaits no task
promise and does not call `browser.stop()` — and, being a total function of
the state, it never throws. -/
theorem c9_stop_idempotent (s : ManagerState) :
    TasksManager.stop (TasksManager.stop s).1
      = ((TasksManager.stop s).1,
         { awaitedTasks := [], browserStopCalled := false }) := by
  simp [TasksManager.stop]

/-- C10. While the rolling pool is stopping, the public `ready` getter and
`healthy()` do not return `false`: both delegate to the `renderer` getter,
which throws `Called (get) renderer on a stopping RollingRenderer`. -/
theorem c10_ready_throws_while_stopping (maxRendererTasks : Nat)
    (browserResponsive : Bool) (s : RollingState) (h : s.stopping = true) :
    RollingRenderer.getRenderer maxRendererTasks s
      = .error "Called (get) renderer on a stopping RollingRenderer" ∧
    RollingRenderer.readyGet maxRendererTasks s
      = .error "Called (get) renderer on a stopping RollingRenderer" ∧
    RollingRenderer.healthyGet maxRendererTasks browserResponsive s
      = .error "Called (get) renderer on a stopping RollingRenderer" := by
  refine ⟨?_, ?_, ?_⟩ <;>
    simp [RollingRenderer.getRenderer, RollingRenderer.readyGet,
      RollingRenderer.healthyGet, h]

/-- C10, witness: a concrete stopping pool state makes `ready` and
`healthy()` throw. -/
theorem c10_ready_throws_witness :
    RollingRenderer.getRenderer 10 ⟨true, newRenderer 0, none, none, 1, []⟩
      = .error "Called (get) renderer on a stopping RollingRenderer" ∧
    RollingRenderer.readyGet 10 ⟨true, newRenderer 0, none, none, 1, []⟩
      = .error "Called (get) renderer on a stopping RollingRenderer" ∧
    RollingRenderer.healthyGet 10 true ⟨true, newRenderer 0, none, none, 1, []⟩
      = .error "Called (get) renderer on a stopping RollingRenderer" :=
  c10_ready_throws_while_stopping 10 true
    ⟨true, newRenderer 0, none, none, 1, []⟩ rfl

/-- C3. The routing decision of the rolling pool. Under the pool invariant
and while the pool is not stopping, one evaluation of the `renderer` getter:
returns a renderer whose stop has not begun (not stopping, identity absent
from the ghost stop log); preserves the invariant; starts a stop only when no
previous stop is pending (so a second stop is never started while one is
outstanding); and follows the routing rule exactly — below the threshold the
current renderer is returned unchanged, at or above the threshold a
replacement is created when none exists (and the current renderer is still
returned), the current renderer keeps being returned while a stop is pending
or the replacement is not ready, and otherwise the current renderer's stop is
begun and the replacement is promoted. At most one replacement ever warms up
because the replacement lives in the single `futureRenderer` slot, which is
only filled when empty and emptied on promotion. -/
theorem c3_rolling_routing (maxRendererTasks : Nat) (s : RollingState)
    (hinv : RollingInv s) (hstop : s.stopping = false) :
    ∃ r s', RollingRenderer.getRenderer maxRendererTasks s = .ok (r, s') ∧
      RollingInv s' ∧
      r.stopping = false ∧
      r.rid ∉ s'.stopsStarted ∧
      (s'.stopsStarted ≠ s.stopsStarted → s.previousStopPending = none) ∧
      (s.currentRenderer.nbTotalTasks < maxRendererTasks →
        r = s.currentRenderer ∧ s' = s) ∧
      (maxRendererTasks ≤ s.currentRenderer.nbTotalTasks →
        s.futureRenderer = none →
          r = s.currentRenderer ∧
          s'.futureRenderer = some (newRenderer s.nextId) ∧
          s'.currentRenderer = s.currentRenderer ∧
          s'.previousStopPending = s.previousStopPending ∧
          s'.stopsStarted = s.stopsStarted) ∧
      (∀ f, maxRendererTasks ≤ s.currentRenderer.nbTotalTasks →
        s.futureRenderer = some f → s.previousStopPending.isSome = true →
          r = s.currentRenderer ∧ s' = s) ∧
      (∀ f, maxRendererTasks ≤ s.currentRenderer.nbTotalTasks →
        s.futureRenderer = some f → s.previousStopPending = none →
        f.ready = false → r = s.currentRenderer ∧ s' = s) ∧
      (∀ f, maxRendererTasks ≤ s.currentRenderer.nbTotalTasks →
        s.futureRenderer = some f → s.previousStopPending = none →
        f.ready = true →
          r = f ∧ s'.currentRenderer = f ∧ s'.futureRenderer = none ∧
          s'.previousStopPending = some s.currentRenderer.rid ∧
          s'.stopsStarted = s.currentRenderer.rid :: s.stopsStarted) := by
  by_cases hlt : s.currentRenderer.nbTotalTasks < maxRendererTasks
  · refine ⟨s.currentRenderer, s, ?_, hinv, hinv.currentNotStopping,
      hinv.currentNoStopStarted, fun h => absurd rfl h,
      fun _ => ⟨rfl, rfl⟩, fun h _ => absurd hlt (by omega),
      fun f h _ _ => absurd hlt (by omega),
      fun f h _ _ _ => absurd hlt (by omega),
      fun f h _ _ _ => absurd hlt (by omega)⟩
    simp [RollingRenderer.getRenderer, hstop, hlt]
  · cases hfut : s.futureRenderer with
    | none =>
      have hroute : ∀ t : RollingState,
          RollingRenderer.routeWithFuture t (newRenderer s.nextId)
            = (t.currentRenderer, t) := by
        intro t
        unfold RollingRenderer.routeWithFuture
        by_cases hp : t.previousStopPending.isSome <;> simp [hp, newRenderer]
      refine ⟨s.currentRenderer,
        { s with futureRenderer := some (newRenderer s.nextId),
                 nextId := s.nextId + 1 }, ?_, ?_, hinv.currentNotStopping,
        hinv.currentNoStopStarted, fun h => absurd rfl h,
        fun h => absurd h hlt,
        fun _ _ => ⟨rfl, rfl, rfl, rfl, rfl⟩,
        fun f _ hf _ => ?_,
        fun f _ hf _ _ => ?_,
        fun f _ hf _ _ => ?_⟩
      rotate_left 2
      · exact Option.noConfusion hf
      · exact Option.noConfusion hf
      · exact Option.noConfusion hf
      · simp [RollingRenderer.getRenderer, hstop, hlt, hfut, hroute]
      · refine ⟨hinv.currentNotStopping, hinv.currentNoStopStarted,
          Nat.lt_succ_of_lt hinv.currentIdLt, ?_, ?_⟩
        · intro f hf
          have hf' : f = newRenderer s.nextId := by
            simpa using hf.symm
          subst hf'
          refine ⟨rfl, ?_, ?_, Nat.lt_succ_self _⟩
          · intro hmem
            exact absurd (hinv.stopsLt _ hmem) (by simp [newRenderer])
          · have := hinv.currentIdLt
            simp only [newRenderer]
            omega
        · intro i hi
          exact Nat.lt_succ_of_lt (hinv.stopsLt i hi)
    | some f =>
      have hge : maxRendererTasks ≤ s.currentRenderer.nbTotalTasks := by omega
      by_cases hp : s.previousStopPending.isSome
      · refine ⟨s.currentRenderer, s, ?_, hinv, hinv.currentNotStopping,
          hinv.currentNoStopStarted, fun h => absurd rfl h,
          fun h => absurd h hlt,
          fun _ hn => ?_,
          fun f' _ _ _ => ⟨rfl, rfl⟩,
          fun f' _ _ hpn _ => absurd (hpn ▸ hp) (by simp),
          fun f' _ _ hpn _ => absurd (hpn ▸ hp) (by simp)⟩
        · simp [RollingRenderer.getRenderer, hstop, hlt, hfut,
            RollingRenderer.routeWithFuture, hp]
        · exact Option.noConfusion hn
      · have hpn : s.previousStopPending = none :=
          Option.not_isSome_iff_eq_none.mp hp
        by_cases hr : f.ready = true
        · obtain ⟨hfs, hfns, hfne, hflt⟩ := hinv.futureOk f hfut
          refine ⟨f,
            { s with currentRenderer := f, futureRenderer := none,
                     previousStopPending := some s.currentRenderer.rid,
                     stopsStarted := s.currentRenderer.rid :: s.stopsStarted },
            ?_, ?_, hfs, ?_, fun _ => hpn,
            fun h => absurd h hlt,
            fun _ hn => ?_,
            fun f' _ _ hps => absurd (hpn ▸ hps) (by simp),
            fun f' _ hf' _ hrn => ?_,
            fun f' _ hf' _ _ => ?_⟩
          · simp [RollingRenderer.getRenderer, hstop, hlt, hfut,
              RollingRenderer.routeWithFuture, hpn, hr]
          · refine ⟨hfs, ?_, hflt, fun f' hf' => absurd hf' (by simp), ?_⟩
            · simp only [List.mem_cons]
              rintro (h | h)
              · exact hfne h
              · exact hfns h
            · intro i hi
              rcases List.mem_cons.mp hi with h | h
              · subst h; exact hinv.currentIdLt
              · exact hinv.stopsLt i h
          · simp only [List.mem_cons]
            rintro (h | h)
            · exact hfne h
            · exact hfns h
          · exact Option.noConfusion hn
          · have heq : f' = f := (Option.some.inj hf').symm
            subst heq
            exact absurd hr (by simp [hrn])
          · have heq : f' = f := (Option.some.inj hf').symm
            subst heq
            exact ⟨rfl, rfl, rfl, rfl, rfl⟩
        · have hrn : f.ready = false := by
            cases hready : f.ready
            · rfl
            · exact absurd hready hr
          refine ⟨s.currentRenderer, s, ?_, hinv, hinv.currentNotStopping,
            hinv.currentNoStopStarted, fun h => absurd rfl h,
            fun h => absurd h hlt,
            fun _ hn => ?_,
            fun f' _ _ hps => absurd (hpn ▸ hps) (by simp),
            fun f' _ _ _ _ => ⟨rfl, rfl⟩,
            fun f' _ hf' _ hry => ?_⟩
          · simp [RollingRenderer.getRenderer, hstop, hlt, hfut,
              RollingRenderer.routeWithFuture, hpn, hrn]
          · exact Option.noConfusion hn
          · have heq : f' = f := (Option.some.inj hf').symm
            subst heq
            exact absurd hry (by simp [hrn])

/-- C3, witness: a fresh pool (current renderer has served 3 of 10 tasks,
no future renderer, no pending stop) satisfies the invariant and the routing
theorem applies to it. -/
theorem c3_rolling_routing_witness :
    ∃ r s', RollingRenderer.getRenderer 10
        ⟨false, ⟨0, 3, true, false⟩, none, none, 1, []⟩ = .ok (r, s') ∧
      RollingInv s' ∧ r.stopping = false := by
  obtain ⟨r, s', h1, h2, h3, -⟩ := c3_rolling_routing 10
    ⟨false, ⟨0, 3, true, false⟩, none, none, 1, []⟩
    ⟨rfl, by decide, by decide, fun f h => Option.noConfusion h, by decide⟩ rfl
  exact ⟨r, s', h1, h2, h3⟩
